import Mathlib

/-!
# Verification of the Monty interpreter core

A shallow embedding of the parts of the Monty Python-subset interpreter that
the specification's claims are about:

* the `datetime.timedelta` model (`crates/monty/src/types/timedelta.rs`),
* the `datetime.date` model (`crates/monty/src/types/date.rs`),
* the `datetime.datetime` model (`crates/monty/src/types/datetime.rs`),
* the VM binary-operation helpers (`crates/monty/src/bytecode/vm/binary.rs`),
* the `int()` constructor path (`crates/monty/src/types/type.rs`),
* the string interner (`crates/monty/src/intern.rs`),
* namespace variable lookup (`src/namespace.rs`),
* statement execution in `RunFrame` (`crates/monty/src/run_frame.rs`).

Machine integers are modelled as `Int` with the explicit bounds checks the
source performs; fallible operations return `Except`/`Option` mirroring the
Rust `Result`/`Option` structure.
-/

/-! ## Core error model

Mirrors `exception_private::{ExcType, SimpleException, RunError}` and
`exception::RawStackFrame`.  The exception crate itself is not among the
provided sources; the structure below records exactly the data the provided
call sites construct and inspect: an exception type tag, an optional message,
and a chain of traceback frames. -/

/-- Exception type tags (the subset constructed by the modelled code paths). -/
inductive ExcType where
  | typeError
  | overflowError
  | valueError
  | nameError
  | assertionError
  | runtimeError
  | timeLimitError
  deriving DecidableEq, Repr

/-- A traceback frame: source position, frame-name string id, and whether it
was created by `RawStackFrame::from_raise` (which suppresses the caret). -/
structure RawStackFrame where
  position : Nat
  name : Nat
  fromRaise : Bool
  deriving DecidableEq, Repr

/-- `SimpleException`: type tag, optional message, accumulated traceback
frames (innermost first, as `with_frame`/`add_caller_frame` append). -/
structure SimpleException where
  excType : ExcType
  msg : Option String
  frames : List RawStackFrame
  deriving DecidableEq, Repr

/-- `SimpleException::new_msg(ty, msg)`: no frames attached yet. -/
def SimpleException.new_msg (ty : ExcType) (m : String) : SimpleException :=
  { excType := ty, msg := some m, frames := [] }

/-- `exc.with_frame(frame)`: attach a traceback frame. -/
def SimpleException.with_frame (e : SimpleException) (f : RawStackFrame) : SimpleException :=
  { e with frames := e.frames ++ [f] }

/-- `RunError`: catchable user exception, uncatchable (resource) exception, or
internal interpreter error. -/
inductive RunError where
  | exc (e : SimpleException)
  | uncatchableExc (e : SimpleException)
  | internal (s : String)
  deriving DecidableEq, Repr

instance instDecEqExcept {ε α : Type} [DecidableEq ε] [DecidableEq α] :
    DecidableEq (Except ε α) := fun x y =>
  match x, y with
  | .error a, .error b =>
    if h : a = b then .isTrue (congrArg Except.error h)
    else .isFalse (fun hc => h (by injection hc))
  | .ok a, .ok b =>
    if h : a = b then .isTrue (congrArg Except.ok h)
    else .isFalse (fun hc => h (by injection hc))
  | .error a, .ok b => .isFalse (fun hc => Except.noConfusion hc)
  | .ok a, .error b => .isFalse (fun hc => Except.noConfusion hc)

/-! ## TimeDelta (`types/timedelta.rs`)

The Rust code stores a `chrono::TimeDelta` (whole seconds `i64` plus
sub-second microseconds); `total_microseconds` recovers the exact signed
microsecond count, and every constructor goes through
`from_total_microseconds`.  We model a `TimeDelta` by that exact
total-microseconds integer, which the chrono representation encodes
losslessly. -/

def MIN_TIMEDELTA_DAYS : Int := -999999999

def MAX_TIMEDELTA_DAYS : Int := 999999999

def DAY_SECONDS : Int := 86400

def DAY_MICROSECONDS : Int := DAY_SECONDS * 1000000

def I64_MIN : Int := -(2 ^ 63)

def I64_MAX : Int := 2 ^ 63 - 1

def I128_MIN : Int := -(2 ^ 127)

def I128_MAX : Int := 2 ^ 127 - 1

/-- `i128::checked_add`: `some` of the exact sum unless it leaves the 128-bit
range. -/
def checked_add_i128 (a b : Int) : Option Int :=
  if I128_MIN ≤ a + b ∧ a + b ≤ I128_MAX then some (a + b) else none

/-- `i128::checked_sub`. -/
def checked_sub_i128 (a b : Int) : Option Int :=
  if I128_MIN ≤ a - b ∧ a - b ≤ I128_MAX then some (a - b) else none

/-- Monty `TimeDelta`, modelled by its exact total-microseconds value. -/
structure TimeDelta where
  total : Int
  deriving DecidableEq, Repr

/-- `timedelta::total_microseconds`. -/
def total_microseconds (d : TimeDelta) : Int := d.total

/-- The `OverflowError` message format used for out-of-range day counts. -/
def timedelta_days_msg (days : Int) : String :=
  "days=" ++ toString days ++ "; must have magnitude <= 999999999"

/-- The range check performed by `chrono::TimeDelta::new(seconds, nanos)`:
the duration (here expressed in microseconds) must lie within
±`i64::MAX` milliseconds.  On the modelled paths this check can never fire
(the CPython day bound is far stricter); it is kept for faithfulness. -/
def chrono_new_ok (seconds micros : Int) : Bool :=
  decide (I64_MIN * 1000 ≤ seconds * 1000000 + micros ∧
    seconds * 1000000 + micros ≤ I64_MAX * 1000)

/-- `timedelta::from_total_microseconds`: normalize an arbitrary microsecond
count, rejecting day counts outside ±999 999 999 with the fixed
`OverflowError` message.  `div_euclid`/`rem_euclid` are Euclidean
division/remainder, which is what `/` and `%` denote on `Int`. -/
def from_total_microseconds (t : Int) : Except RunError TimeDelta :=
  let days := t / DAY_MICROSECONDS
  if days < MIN_TIMEDELTA_DAYS ∨ MAX_TIMEDELTA_DAYS < days then
    .error (.exc (SimpleException.new_msg .overflowError (timedelta_days_msg days)))
  else
    let seconds := t / 1000000
    let micros := t % 1000000
    if seconds < I64_MIN ∨ I64_MAX < seconds then
      .error (.exc (SimpleException.new_msg .overflowError "timedelta value out of range"))
    else if ¬ chrono_new_ok seconds micros then
      .error (.exc (SimpleException.new_msg .overflowError "timedelta value out of range"))
    else
      .ok ⟨t⟩

/-- `timedelta::new(days, seconds, microseconds)`: validate the CPython
component ranges, then normalize through `from_total_microseconds`. -/
def timedelta_new (days seconds microseconds : Int) : Except RunError TimeDelta :=
  if days < MIN_TIMEDELTA_DAYS ∨ MAX_TIMEDELTA_DAYS < days then
    .error (.exc (SimpleException.new_msg .overflowError (timedelta_days_msg days)))
  else if ¬ (0 ≤ seconds ∧ seconds < 86400) ∨ ¬ (0 ≤ microseconds ∧ microseconds < 1000000) then
    .error (.exc (SimpleException.new_msg .valueError "timedelta normalized fields out of range"))
  else
    from_total_microseconds (days * DAY_MICROSECONDS + seconds * 1000000 + microseconds)

/-- `timedelta::components`: the CPython normalized `(days, seconds,
microseconds)` triple. -/
def timedelta_components (d : TimeDelta) : Int × Int × Int :=
  let t := total_microseconds d
  let days := t / DAY_MICROSECONDS
  let rem := t % DAY_MICROSECONDS
  (days, rem / 1000000, rem % 1000000)

/-- Days component shorthand (`components(d).0`; in the `date.rs` arithmetic
helpers this is the `delta.days` field). -/
def timedelta_days (d : TimeDelta) : Int := d.total / DAY_MICROSECONDS

/-- The canonical-form invariant: the normalized day count is in bounds (the
second and microsecond components are in range by construction of
Euclidean division). -/
def TimeDelta.Normalized (d : TimeDelta) : Prop :=
  MIN_TIMEDELTA_DAYS ≤ timedelta_days d ∧ timedelta_days d ≤ MAX_TIMEDELTA_DAYS

instance (d : TimeDelta) : Decidable d.Normalized := by
  unfold TimeDelta.Normalized; infer_instance

/-- `TimeDelta::py_add`: exact 128-bit total-microseconds addition, then
normalization; any failure is squashed to `None` (the VM layer rebuilds the
overflow error). -/
def timedelta_py_add (a b : TimeDelta) : Option TimeDelta :=
  match checked_add_i128 (total_microseconds a) (total_microseconds b) with
  | none => none
  | some tot =>
    match from_total_microseconds tot with
    | .ok r => some r
    | .error _ => none

/-- `TimeDelta::py_sub`. -/
def timedelta_py_sub (a b : TimeDelta) : Option TimeDelta :=
  match checked_sub_i128 (total_microseconds a) (total_microseconds b) with
  | none => none
  | some tot =>
    match from_total_microseconds tot with
    | .ok r => some r
    | .error _ => none

/-! ## Date (`types/date.rs`)

A `Date` is a proleptic Gregorian ordinal (`1 == 0001-01-01`), stored as
`i32`.  `Date::from_ordinal` accepts exactly the ordinals whose civil year is
in `1..=9999`, i.e. `1 ..= 3652059` (ordinal 3652059 is 9999-12-31). -/

def DATE_MIN_ORDINAL : Int := 1

def DATE_MAX_ORDINAL : Int := 3652059

def I32_MIN : Int := -(2 ^ 31)

def I32_MAX : Int := 2 ^ 31 - 1

/-- `i32::saturating_add`. -/
def saturating_add_i32 (a b : Int) : Int :=
  if a + b < I32_MIN then I32_MIN else if I32_MAX < a + b then I32_MAX else a + b

/-- `i32::saturating_sub`. -/
def saturating_sub_i32 (a b : Int) : Int :=
  if a - b < I32_MIN then I32_MIN else if I32_MAX < a - b then I32_MAX else a - b

/-- Monty `Date`: a proleptic Gregorian ordinal. -/
structure Date where
  ordinal : Int
  deriving DecidableEq, Repr

/-- The invariant every stored `Date` satisfies (established by
`from_ymd`/`from_ordinal`): its year is in `1..=9999`. -/
def Date.Valid (d : Date) : Prop :=
  DATE_MIN_ORDINAL ≤ d.ordinal ∧ d.ordinal ≤ DATE_MAX_ORDINAL

instance (d : Date) : Decidable d.Valid := by
  unfold Date.Valid; infer_instance

/-- `Date::from_ordinal`: succeeds exactly when the ordinal denotes a date
with year in `1..=9999`; otherwise `OverflowError "date value out of range"`. -/
def date_from_ordinal (o : Int) : Except RunError Date :=
  if DATE_MIN_ORDINAL ≤ o ∧ o ≤ DATE_MAX_ORDINAL then .ok ⟨o⟩
  else .error (.exc (SimpleException.new_msg .overflowError "date value out of range"))

/-- `Date::py_sub_date` (also the `PyTrait` `Date::py_sub` body): the ordinal
difference in whole days converted to a `TimeDelta`, `None` if the
conversion overflows. -/
def date_py_sub_date (a b : Date) : Option TimeDelta :=
  let diff_days := a.ordinal - b.ordinal
  match from_total_microseconds (diff_days * 86400000000) with
  | .ok delta => some delta
  | .error _ => none

/-- `Date::py_add` (date + timedelta): adds only the timedelta's days
component to the ordinal (saturating `i32` add), then revalidates. -/
def date_py_add (d : Date) (delta : TimeDelta) : Option Date :=
  let new_ordinal := saturating_add_i32 d.ordinal (timedelta_days delta)
  match date_from_ordinal new_ordinal with
  | .ok date => some date
  | .error _ => none

/-- `Date::py_sub` (date - timedelta): subtracts only the days component. -/
def date_py_sub (d : Date) (delta : TimeDelta) : Option Date :=
  let new_ordinal := saturating_sub_i32 d.ordinal (timedelta_days delta)
  match date_from_ordinal new_ordinal with
  | .ok date => some date
  | .error _ => none

/-! ## DateTime (`types/datetime.rs`)

A `DateTime` stores a `chrono::NaiveDateTime` (civil wall-clock instant) plus
an optional fixed UTC offset in seconds and an optional timezone display
name.  Every constructor validates that the civil year is in `1..=9999`, so
`local_micros` (the wall-clock microsecond timestamp) is defined for every
stored value; we model the naive part by that timestamp directly. -/

/-- Monty `DateTime`: local wall-clock microseconds since the Unix epoch,
optional fixed UTC offset (seconds), optional timezone name. -/
structure DateTime where
  localMicros : Int
  offsetSeconds : Option Int
  timezoneName : Option String
  deriving DecidableEq, Repr

/-- `datetime::is_aware`: an aware datetime carries a fixed offset. -/
def is_aware (dt : DateTime) : Bool := dt.offsetSeconds.isSome

/-- `datetime::local_micros` for stored (year-validated) datetimes. -/
def local_micros (dt : DateTime) : Int := dt.localMicros

/-- `datetime::utc_micros`: UTC microseconds for aware datetimes (local minus
offset), local microseconds for naive ones. -/
def utc_micros (dt : DateTime) : Int :=
  match dt.offsetSeconds with
  | some off => dt.localMicros - off * 1000000
  | none => dt.localMicros

/-- `DateTime::py_eq`: aware and naive never compare equal; otherwise compare
UTC (aware) or local (naive) microsecond timestamps. -/
def datetime_py_eq (a b : DateTime) : Bool :=
  if is_aware a ≠ is_aware b then false
  else if is_aware a then utc_micros a == utc_micros b
  else local_micros a == local_micros b

/-- `DateTime::py_cmp`: aware and naive are unordered (`None`); otherwise the
total order on the UTC (aware) or local (naive) timestamps. -/
def datetime_py_cmp (a b : DateTime) : Option Ordering :=
  if is_aware a ≠ is_aware b then none
  else if is_aware a then some (compare (utc_micros a) (utc_micros b))
  else some (compare (local_micros a) (local_micros b))

/-- `DateTime::py_sub` (datetime - datetime): `None` on aware/naive mix,
otherwise the exact timestamp difference as a `TimeDelta` (failures of the
timedelta conversion are squashed to `None`). -/
def datetime_py_sub (a b : DateTime) : Option TimeDelta :=
  if is_aware a ≠ is_aware b then none
  else
    let diff := if is_aware a then utc_micros a - utc_micros b
      else local_micros a - local_micros b
    match from_total_microseconds diff with
    | .ok delta => some delta
    | .error _ => none

/-! ## Values and the heap

The value/heap crate (`value.rs`, `heap.rs`) is not among the provided
sources; the shapes below record what the provided call sites construct and
match on: inline scalar variants plus `Ref(HeapId)` into an arena of heap
records, and the heap-record variants the datetime/arithmetic paths inspect.
Type names follow `Type`'s `Display` impl in `types/type.rs`. -/

/-- Heap records (the variants the modelled paths inspect; everything else is
`otherD` with its Python-level type name). -/
inductive HeapData where
  | dateD (d : Date)
  | datetimeD (dt : DateTime)
  | timedeltaD (td : TimeDelta)
  | strD (s : String)
  | longIntD (n : Int)
  | otherD (typeName : String)
  deriving DecidableEq, Repr

/-- A tagged value: inline scalars or a heap handle. -/
inductive Value where
  | noneV
  | boolV (b : Bool)
  | intV (n : Int)
  | floatV (q : ℚ)
  | internString (sid : Nat)
  | excV (e : SimpleException)
  | builtinV (b : Nat)
  | ref (id : Nat)
  | undefinedV
  deriving DecidableEq, Repr

/-- The heap, as the arena's payload vector (slot `i` holds record `i`). -/
abbrev Heap := List HeapData

/-- `heap.get(id)` (panics in Rust on an invalid id; total here, with a
default only reachable for invalid ids). -/
def Heap.get (h : Heap) (id : Nat) : HeapData := h.getD id (.otherD "<invalid>")

/-- Python-level type name of a heap record (per `Type`'s `Display`). -/
def HeapData.type_name : HeapData → String
  | .dateD _ => "date"
  | .datetimeD _ => "datetime"
  | .timedeltaD _ => "timedelta"
  | .strD _ => "str"
  | .longIntD _ => "int"
  | .otherD n => n

/-- `value.py_type(heap)` rendered as its `Display` name (the `Value → Type`
dispatch lives in the absent `value.rs`; inline variants map to their obvious
tags, refs to their heap record's tag). -/
def Value.py_type_name (v : Value) (h : Heap) : String :=
  match v with
  | .noneV => "NoneType"
  | .boolV _ => "bool"
  | .intV _ => "int"
  | .floatV _ => "float"
  | .internString _ => "str"
  | .excV _ => "exception"
  | .builtinV _ => "builtin_function_or_method"
  | .ref id => (h.get id).type_name
  | .undefinedV => "<undefined>"

/-! ## VM binary operations (`bytecode/vm/binary.rs`) -/

/-- Modelled from the spec: `ExcType::binary_type_error(op, lhs, rhs)` (its
constructor lives in the absent exception module).  The spec requires a
`TypeError` naming the operator and both operand type names; the message
follows CPython's format. -/
def binary_type_error (op lhsType rhsType : String) : RunError :=
  .exc (SimpleException.new_msg .typeError
    ("unsupported operand type(s) for " ++ op ++ ": '" ++ lhsType ++ "' and '" ++ rhsType ++ "'"))

/-- Modelled from the spec: `ExcType::datetime_subtract_naive_aware_error()`,
the `TypeError` with the fixed aware/naive subtraction message. -/
def datetime_subtract_naive_aware_error : RunError :=
  .exc (SimpleException.new_msg .typeError
    "can't subtract offset-naive and offset-aware datetimes")

/-- `binary.rs::datetime_awareness`: `some` awareness flag for datetime heap
refs, `none` otherwise. -/
def datetime_awareness (v : Value) (h : Heap) : Option Bool :=
  match v with
  | .ref id =>
    match h.get id with
    | .datetimeD dt => some (is_aware dt)
    | _ => none
  | _ => none

/-- `binary.rs::is_date`. -/
def value_is_date (v : Value) (h : Heap) : Bool :=
  match v with
  | .ref id => match h.get id with | .dateD _ => true | _ => false
  | _ => false

/-- `binary.rs::is_datetime`. -/
def value_is_datetime (v : Value) (h : Heap) : Bool :=
  match v with
  | .ref id => match h.get id with | .datetimeD _ => true | _ => false
  | _ => false

/-- `binary.rs::is_timedelta`. -/
def value_is_timedelta (v : Value) (h : Heap) : Bool :=
  match v with
  | .ref id => match h.get id with | .timedeltaD _ => true | _ => false
  | _ => false

/-- `binary.rs::as_timedelta`. -/
def value_as_timedelta (v : Value) (h : Heap) : Option TimeDelta :=
  match v with
  | .ref id => match h.get id with | .timedeltaD td => some td | _ => none
  | _ => none

/-- `binary.rs::date_value_out_of_range_error`. -/
def date_value_out_of_range_error : RunError :=
  .exc (SimpleException.new_msg .overflowError "date value out of range")

/-- `binary.rs::timedelta_overflow_error`: recompute the (unchecked i128)
total of the failed timedelta addition/subtraction; if its day count is out
of bounds, the fixed-format `OverflowError`, else `none`. -/
def timedelta_overflow_error (lhs rhs : TimeDelta) (add : Bool) : Option RunError :=
  let total := if add then total_microseconds lhs + total_microseconds rhs
    else total_microseconds lhs - total_microseconds rhs
  let days := total / 86400000000
  if days < MIN_TIMEDELTA_DAYS ∨ MAX_TIMEDELTA_DAYS < days then
    some (.exc (SimpleException.new_msg .overflowError (timedelta_days_msg days)))
  else none

/-- `binary.rs::datetime_arithmetic_overflow_add`. -/
def datetime_arithmetic_overflow_add (lhs rhs : Value) (h : Heap) : Option RunError :=
  if (value_is_date lhs h && value_is_timedelta rhs h)
      || (value_is_datetime lhs h && value_is_timedelta rhs h)
      || (value_is_timedelta lhs h && value_is_date rhs h)
      || (value_is_timedelta lhs h && value_is_datetime rhs h) then
    some date_value_out_of_range_error
  else
    match value_as_timedelta lhs h, value_as_timedelta rhs h with
    | some l, some r => timedelta_overflow_error l r true
    | _, _ => none

/-- `binary.rs::datetime_arithmetic_overflow_sub`. -/
def datetime_arithmetic_overflow_sub (lhs rhs : Value) (h : Heap) : Option RunError :=
  if (value_is_date lhs h && value_is_timedelta rhs h)
      || (value_is_datetime lhs h && value_is_timedelta rhs h) then
    some date_value_out_of_range_error
  else
    match value_as_timedelta lhs h, value_as_timedelta rhs h with
    | some l, some r => timedelta_overflow_error l r false
    | _, _ => none

/-- The per-type binary operation a VM helper dispatches to
(`Value::py_add` etc., whose cross-type dispatch lives in the absent
`value.rs`): `Ok(Some v)` success, `Ok(None)` unsupported combination,
`Err` arithmetic error. -/
def PyBinOp := Value → Value → Except RunError (Option Value)

/-- `VM::binary_add`: pop rhs then lhs, dispatch, push on success; on
`Ok(None)` try the datetime/timedelta overflow special case, else a
`TypeError` naming the operator and both operand type names. -/
def vm_binary_add (py_add_f : PyBinOp) (stack : List Value) (h : Heap) :
    Except RunError (List Value) :=
  match stack with
  | rhs :: lhs :: rest =>
    match py_add_f lhs rhs with
    | .ok (some v) => .ok (v :: rest)
    | .ok none =>
      match datetime_arithmetic_overflow_add lhs rhs h with
      | some err => .error err
      | none => .error (binary_type_error "+" (lhs.py_type_name h) (rhs.py_type_name h))
    | .error e => .error e
  | _ => .error (.internal "stack underflow")

/-- `VM::binary_sub`: like `binary_add` but with the aware/naive datetime
special case checked first. -/
def vm_binary_sub (py_sub_f : PyBinOp) (stack : List Value) (h : Heap) :
    Except RunError (List Value) :=
  match stack with
  | rhs :: lhs :: rest =>
    match py_sub_f lhs rhs with
    | .ok (some v) => .ok (v :: rest)
    | .ok none =>
      match datetime_awareness lhs h, datetime_awareness rhs h with
      | some lhs_aware, some rhs_aware =>
        if lhs_aware ≠ rhs_aware then .error datetime_subtract_naive_aware_error
        else
          match datetime_arithmetic_overflow_sub lhs rhs h with
          | some err => .error err
          | none => .error (binary_type_error "-" (lhs.py_type_name h) (rhs.py_type_name h))
      | _, _ =>
        match datetime_arithmetic_overflow_sub lhs rhs h with
        | some err => .error err
        | none => .error (binary_type_error "-" (lhs.py_type_name h) (rhs.py_type_name h))
    | .error e => .error e
  | _ => .error (.internal "stack underflow")

/-- The shared shape of `binary_mult` / `binary_div` / `binary_floordiv` /
`binary_mod` / `binary_pow`: pop rhs then lhs, push on success, and on
`Ok(None)` a `TypeError` naming the operator and both operand type names. -/
def vm_binary_simple (op : String) (py_op_f : PyBinOp) (stack : List Value) (h : Heap) :
    Except RunError (List Value) :=
  match stack with
  | rhs :: lhs :: rest =>
    match py_op_f lhs rhs with
    | .ok (some v) => .ok (v :: rest)
    | .ok none => .error (binary_type_error op (lhs.py_type_name h) (rhs.py_type_name h))
    | .error e => .error e
  | _ => .error (.internal "stack underflow")

/-- `VM::binary_mult`. -/
def vm_binary_mult (f : PyBinOp) (s : List Value) (h : Heap) := vm_binary_simple "*" f s h

/-- `VM::binary_div`. -/
def vm_binary_div (f : PyBinOp) (s : List Value) (h : Heap) := vm_binary_simple "/" f s h

/-- `VM::binary_floordiv`. -/
def vm_binary_floordiv (f : PyBinOp) (s : List Value) (h : Heap) := vm_binary_simple "//" f s h

/-- `VM::binary_mod`. -/
def vm_binary_mod (f : PyBinOp) (s : List Value) (h : Heap) := vm_binary_simple "%" f s h

/-- `VM::binary_pow` (its operator is rendered "** or pow()" in errors). -/
def vm_binary_pow (f : PyBinOp) (s : List Value) (h : Heap) :=
  vm_binary_simple "** or pow()" f s h

/-! ## The `int()` constructor (`types/type.rs`)

`Type::call` for `Type::Int`, including `f64_to_i64_truncate` and
`parse_int_from_str`.  Finite IEEE doubles are modelled by their exact
rational values; truncation of a finite double toward zero is exactly
representable, so the float comparisons below coincide with exact rational
comparisons.  The cast constants: `i64::MAX as f64` rounds to `2^63` and
`i64::MIN as f64` is exactly `-2^63`. -/

/-- `f64::trunc`: round toward zero (on the exact rational value). -/
def rat_trunc (q : ℚ) : Int := q.num.tdiv q.den

/-- `type.rs::f64_to_i64_truncate`: truncate toward zero, clamping to
`i64::MAX` / `i64::MIN` when the truncated value is at or beyond `±2^63`. -/
def f64_to_i64_truncate (q : ℚ) : Int :=
  let truncated := rat_trunc q
  if 2 ^ 63 ≤ truncated then I64_MAX
  else if truncated ≤ -(2 ^ 63) then I64_MIN
  else truncated

/-- Digit-sequence accumulator for decimal parsing. -/
def parse_digits_aux (acc : Int) : List Char → Option Int
  | [] => some acc
  | c :: rest =>
    if c.isDigit then parse_digits_aux (acc * 10 + (c.toNat - 48 : Nat)) rest else none

/-- A nonempty all-digit sequence, as its value. -/
def parse_digits : List Char → Option Int
  | [] => none
  | cs => parse_digits_aux 0 cs

/-- Decimal integer syntax shared by `i64::from_str` and
`BigInt::from_str`: optional sign, then one or more digits. -/
def parse_decimal : List Char → Option Int
  | [] => none
  | '+' :: rest => parse_digits rest
  | '-' :: rest => (parse_digits rest).map (fun n => -n)
  | cs => parse_digits cs

/-- `str::parse::<i64>`: decimal syntax, rejecting values outside `i64`. -/
def parse_i64 (s : String) : Option Int :=
  match parse_decimal s.data with
  | some n => if I64_MIN ≤ n ∧ n ≤ I64_MAX then some n else none
  | none => none

/-- `str::parse::<BigInt>`: decimal syntax, unbounded. -/
def parse_bigint (s : String) : Option Int := parse_decimal s.data

/-- `str::trim` (whitespace at both ends removed). -/
def trim_str (s : String) : String :=
  String.mk ((s.data.dropWhile Char.isWhitespace).reverse.dropWhile Char.isWhitespace |>.reverse)

/-- `str::replace('_', "")`. -/
def remove_underscores (s : String) : String :=
  String.mk (s.data.filter (fun c => c ≠ '_'))

/-- Python `repr` of a string as used in error messages (plain quoting; the
full `StringRepr` escaping is irrelevant to the claims). -/
def string_repr (s : String) : String := "'" ++ s ++ "'"

/-- Modelled from the spec: `LongInt::into_value` (`types/longint.rs` is not
among the provided sources).  Spec §4.3.2: "LongInts demote back to `Int`
whenever they fit"; otherwise the big integer is allocated on the heap. -/
def longint_into_value (n : Int) (h : Heap) : Value × Heap :=
  if I64_MIN ≤ n ∧ n ≤ I64_MAX then (.intV n, h) else (.ref h.length, h ++ [.longIntD n])

/-- `type.rs::parse_int_from_str`: fast `i64` path, then trimmed, then with
`_` separators removed, then `BigInt`; else the CPython `ValueError`. -/
def parse_int_from_str (s : String) (h : Heap) : Except RunError (Value × Heap) :=
  match parse_i64 s with
  | some n => .ok (.intV n, h)
  | none =>
    let trimmed := trim_str s
    match parse_i64 trimmed with
    | some n => .ok (.intV n, h)
    | none =>
      let normalized := remove_underscores trimmed
      match parse_i64 normalized with
      | some n => .ok (.intV n, h)
      | none =>
        match parse_bigint normalized with
        | some bi => .ok (longint_into_value bi h)
        | none =>
          .error (.exc (SimpleException.new_msg .valueError
            ("invalid literal for int() with base 10: " ++ string_repr s)))

/-- Modelled from the spec: `ExcType::type_error_int_conversion` (absent
exception module); a `TypeError` naming the offending type. -/
def type_error_int_conversion (typeName : String) : RunError :=
  .exc (SimpleException.new_msg .typeError
    ("int() argument must be a string, a bytes-like object or a real number, not '"
      ++ typeName ++ "'"))

/-- `Type::call` for `Type::Int`: the `int()` constructor applied to zero or
one argument. -/
def int_call (arg : Option Value) (interns : List String) (h : Heap) :
    Except RunError (Value × Heap) :=
  match arg with
  | none => .ok (.intV 0, h)
  | some v =>
    match v with
    | .intV i => .ok (.intV i, h)
    | .floatV f => .ok (.intV (f64_to_i64_truncate f), h)
    | .boolV b => .ok (.intV (if b then 1 else 0), h)
    | .internString sid => parse_int_from_str (interns.getD sid "") h
    | .ref hid =>
      match h.get hid with
      | .strD s => parse_int_from_str s h
      | .longIntD n => .ok (longint_into_value n h)
      | d => .error (type_error_int_conversion d.type_name)
    | w => .error (type_error_int_conversion (w.py_type_name h))

/-! ## The string interner (`intern.rs`)

`InternerBuilder` keeps a dedup map from string to first-assigned id plus the
id-indexed storage vector; this is modelled by the storage vector alone, with
membership lookup standing in for the map (the map always sends a string to
the index of its first insertion). -/

/-- `InternerBuilder::intern`: an already-present string gets its existing id
and the table is unchanged; a new string is appended at the next id. -/
def intern (strings : List String) (s : String) : List String × Nat :=
  if s ∈ strings then (strings, strings.indexOf s)
  else (strings ++ [s], strings.length)

/-- The 70 well-known attribute names, in the exact order
`InternerBuilder::build_base` interns them (= the `attr::*` constants,
ids 1..=70). -/
def attr_names : List String :=
  ["append", "insert", "extend", "reverse", "sort",
   "get", "keys", "values", "items", "setdefault", "popitem", "fromkeys",
   "pop", "clear", "copy",
   "add", "remove", "discard", "update", "union", "intersection", "difference",
   "symmetric_difference", "issubset", "issuperset", "isdisjoint",
   "join", "lower", "upper", "capitalize", "title", "swapcase", "casefold",
   "isalpha", "isdigit", "isalnum", "isnumeric", "isspace", "islower", "isupper",
   "isascii", "isdecimal",
   "find", "rfind", "index", "rindex", "count", "startswith", "endswith",
   "strip", "lstrip", "rstrip", "removeprefix", "removesuffix",
   "split", "rsplit", "splitlines", "partition", "rpartition",
   "replace", "center", "ljust", "rjust", "zfill",
   "encode", "isidentifier", "istitle",
   "decode", "hex", "fromhex"]

/-- The 128 single-byte ASCII strings, in byte order. -/
def ascii_strings : List String :=
  (List.range 128).map (fun b => String.mk [Char.ofNat b])

/-- The full pre-intern sequence of `build_base`: `"<module>"`, the attribute
names, the empty string, then the ASCII single-character strings. -/
def base_strings : List String :=
  "<module>" :: (attr_names ++ [""] ++ ascii_strings)

/-- `InternerBuilder::build_base`: intern the base sequence in order into an
empty table. -/
def build_base : List String :=
  base_strings.foldl (fun st s => (intern st s).1) []

/-! ## Namespace variable lookup (`src/namespace.rs`)

The tree-walking interpreter's `Namespaces::get_var_mut`.  Its exception
type stores a position directly (`SimpleException::new(..).with_position`). -/

/-- Variable scope resolved at compile time (`NameScope`). -/
inductive NameScope where
  | localScope
  | globalScope
  deriving DecidableEq, Repr

/-- An `Identifier`: name, source position, scope, and namespace slot index
(`ident.heap_id()` in this version of the code). -/
structure Identifier where
  name : String
  position : Nat
  scope : NameScope
  namespace_id : Nat
  deriving DecidableEq, Repr

/-- The tree-walker's `SimpleException`: type, optional message, optional
source position. -/
structure OldSimpleException where
  excType : ExcType
  msg : Option String
  position : Option Nat
  deriving DecidableEq, Repr

/-- `GLOBAL_NS_IDX`. -/
def GLOBAL_NS_IDX : Nat := 0

/-- `Namespaces::get_var_mut`: resolve the namespace by scope, then the slot;
an out-of-bounds slot or an `Undefined` sentinel is a `NameError` carrying
the variable's name and position, anything else is returned unchanged. -/
def get_var_mut (namespaces : List (List Value)) (local_idx : Nat) (ident : Identifier) :
    Except OldSimpleException Value :=
  let ns_idx := match ident.scope with
    | .localScope => local_idx
    | .globalScope => GLOBAL_NS_IDX
  let ns := namespaces.getD ns_idx []
  match ns.get? ident.namespace_id with
  | some v =>
    if v = .undefinedV then
      .error ⟨.nameError, some ident.name, some ident.position⟩
    else .ok v
  | none => .error ⟨.nameError, some ident.name, some ident.position⟩

/-! ## RunFrame statement execution (`run_frame.rs`)

Expression evaluation (`evaluate.rs` is not among the provided sources) is
abstracted by its outcome: a value, a pending `ExternalCall`, or an error —
exactly the three-way split `frame_ext_call!` matches on.  Statement kinds
whose post-evaluation behavior is irrelevant to the claims (assign variants,
function definition) carry their outcome abstractly. -/

/-- An `ExternalCall`: host-effect opcode plus already-evaluated arguments. -/
structure ExternalCall where
  opcode : Nat
  args : List Value
  deriving DecidableEq, Repr

/-- `FrameExit`: a return value or a suspension into the host. -/
inductive FrameExit where
  | ret (v : Value)
  | externalCall (c : ExternalCall)
  deriving DecidableEq, Repr

/-- `EvalResult<T>`: a computed value or a pending external call. -/
inductive EvalResult (α : Type) where
  | value (a : α)
  | externalCall (c : ExternalCall)
  deriving DecidableEq, Repr

/-- `ArgValues` (only the `Empty` shape is exercised by the modelled paths). -/
inductive ArgValues where
  | empty
  | args (vs : List Value)
  deriving DecidableEq, Repr

/-- `RunFrame::raise_frame`: a traceback frame built by
`RawStackFrame::from_raise`, i.e. with the caret suppressed. -/
def raise_frame (position : Nat) (name : Nat) : RawStackFrame :=
  { position := position, name := name, fromRaise := true }

/-- `RunFrame::raise`: evaluate the raise expression; an exception instance
propagates with a caret-suppressed traceback frame; a builtin is called with
zero arguments and, if that yields an exception instance, it propagates the
same way; any other evaluated value is dropped and
`TypeError("exceptions must derive from BaseException")` is raised.
`builtin_call` abstracts `Builtins::call` (`builtins.rs` is not among the
provided sources). -/
def frame_raise (builtin_call : Nat → ArgValues → Except RunError Value) (name : Nat)
    (exc_expr : Option (Except RunError (EvalResult Value) × Nat)) :
    Except RunError (Option FrameExit) :=
  match exc_expr with
  | none => .error (.internal "plain raise not yet supported")
  | some (outcome, pos) =>
    match outcome with
    | .error e => .error e
    | .ok (.externalCall c) => .ok (some (.externalCall c))
    | .ok (.value v) =>
      match v with
      | .excV e => .error (.exc (e.with_frame (raise_frame pos name)))
      | .builtinV b =>
        match builtin_call b .empty with
        | .error e => .error e
        | .ok (.excV e) => .error (.exc (e.with_frame (raise_frame pos name)))
        | .ok _ =>
          .error (.exc (SimpleException.new_msg .typeError
            "exceptions must derive from BaseException"))
      | _ =>
        .error (.exc (SimpleException.new_msg .typeError
          "exceptions must derive from BaseException"))

/-- `RunFrame::assert_`. -/
def frame_assert (test : Except RunError (EvalResult Bool))
    (msg : Option (Except RunError (EvalResult String))) (pos : Nat) (name : Nat) :
    Except RunError (Option FrameExit) :=
  match test with
  | .error e => .error e
  | .ok (.externalCall c) => .ok (some (.externalCall c))
  | .ok (.value true) => .ok none
  | .ok (.value false) =>
    match msg with
    | none => .error (.exc ⟨.assertionError, none, [⟨pos, name, false⟩]⟩)
    | some m =>
      match m with
      | .error e => .error e
      | .ok (.externalCall c) => .ok (some (.externalCall c))
      | .ok (.value s) => .error (.exc ⟨.assertionError, some s, [⟨pos, name, false⟩]⟩)

/-- `ForIterator`: reified finite iteration state — the yielded item sequence
plus the next-index cursor (`for_next` advances it, `decr` rewinds it). -/
structure ForIterator where
  items : List Value
  idx : Nat
  deriving DecidableEq, Repr

/-- `ForIterator::for_next`: yield the current element and advance, or signal
exhaustion. -/
def for_next (it : ForIterator) : Option (Value × ForIterator) :=
  match it.items.get? it.idx with
  | some v => some (v, ⟨it.items, it.idx + 1⟩)
  | none => none

/-- `ForIterator::decr`: rewind the cursor by one step. -/
def ForIterator.decr (it : ForIterator) : ForIterator := ⟨it.items, it.idx - 1⟩

/-- Outcome of `RunFrame::for_`'s loop: normal completion (iterator dropped),
a `FrameExit` with the rewound iterator saved as clause state, or an error
(iterator dropped, nothing saved). -/
inductive ForOutcome where
  | done
  | exited (e : FrameExit) (saved : ForIterator)
  | failed (e : RunError)
  deriving DecidableEq, Repr

/-- The loop of `RunFrame::for_`, with fuel equal to the number of remaining
items (the wrapper `for_loop` supplies exactly that, and the iterator is
exhausted exactly when the fuel runs out, so the fuel never cuts the loop
short).  `body` abstracts executing the loop body. -/
def for_loop_fuel (fuel : Nat) (body : Value → Except RunError (Option FrameExit))
    (it : ForIterator) : ForOutcome :=
  match fuel with
  | 0 => .done
  | fuel' + 1 =>
    match for_next it with
    | none => .done
    | some (v, it') =>
      match body v with
      | .ok none => for_loop_fuel fuel' body it'
      | .ok (some exit) => .exited exit it'.decr
      | .error e => .failed e

/-- `RunFrame::for_`'s iteration loop (lines 600-637): on a body `FrameExit`
the iterator is rewound by one and saved as `ClauseState::For`; on a body
error the iterator is dropped and the error propagates. -/
def for_loop (body : Value → Except RunError (Option FrameExit)) (it : ForIterator) :
    ForOutcome :=
  for_loop_fuel (it.items.length - it.idx) body it

/-- Statement AST (`expressions::Node`), with evaluation outcomes embedded
shallowly.  Assign/op-assign/subscript-assign/function-def dispatch is
abstracted by its outcome; `raise`, `assert`, `for` and `if` keep the
control structure the claims are about. -/
inductive Node where
  | exprStmt (outcome : Except RunError (EvalResult Unit))
  | returnStmt (outcome : Except RunError (EvalResult Value))
  | returnNone
  | raiseStmt (exc_expr : Option (Except RunError (EvalResult Value) × Nat))
  | assertStmt (test : Except RunError (EvalResult Bool))
      (msg : Option (Except RunError (EvalResult String))) (pos : Nat)
  | assignStmt (outcome : Except RunError (EvalResult Value))
  | opAssignStmt (outcome : Except RunError (Option FrameExit))
  | subscriptAssignStmt (outcome : Except RunError (Option FrameExit))
  | forStmt (iter_outcome : Except RunError (EvalResult ForIterator))
      (body : Value → Except RunError (Option FrameExit))
  | ifStmt (test : Except RunError (EvalResult Bool))
      (body_outcome or_else_outcome : Except RunError (Option FrameExit))
  | functionDef (outcome : Except RunError Unit)

/-- `RunFrame::execute_node` (lines 151-238): before dispatching on the
statement kind, poll the resource tracker's time limit; a failed check
becomes `RunError::UncatchableExc` immediately.  `check_time` is the
tracker's answer (`some e` = limit exceeded, already converted to an
exception via `into_exception`), `builtin_call` and `name` as in
`frame_raise`. -/
def execute_node (check_time : Option SimpleException)
    (builtin_call : Nat → ArgValues → Except RunError Value) (name : Nat)
    (node : Node) : Except RunError (Option FrameExit) :=
  match check_time with
  | some e => .error (.uncatchableExc e)
  | none =>
    match node with
    | .exprStmt o =>
      match o with
      | .ok (.value _) => .ok none
      | .ok (.externalCall c) => .ok (some (.externalCall c))
      | .error e => .error e
    | .returnStmt o =>
      match o with
      | .ok (.value v) => .ok (some (.ret v))
      | .ok (.externalCall c) => .ok (some (.externalCall c))
      | .error e => .error e
    | .returnNone => .ok (some (.ret .noneV))
    | .raiseStmt e => frame_raise builtin_call name e
    | .assertStmt test msg pos => frame_assert test msg pos name
    | .assignStmt o =>
      match o with
      | .ok (.value _) => .ok none
      | .ok (.externalCall c) => .ok (some (.externalCall c))
      | .error e => .error e
    | .opAssignStmt o => o
    | .subscriptAssignStmt o => o
    | .forStmt iterO body =>
      match iterO with
      | .error e => .error e
      | .ok (.externalCall c) => .ok (some (.externalCall c))
      | .ok (.value it) =>
        match for_loop body it with
        | .done => .ok none
        | .exited e _ => .ok (some e)
        | .failed e => .error e
    | .ifStmt test bodyO elseO =>
      match test with
      | .error e => .error e
      | .ok (.externalCall c) => .ok (some (.externalCall c))
      | .ok (.value true) => bodyO
      | .ok (.value false) => elseO
    | .functionDef o =>
      match o with
      | .ok _ => .ok none
      | .error e => .error e

/-! ## Helper lemmas: timedelta normalization -/

theorem from_total_ok_elim {t : Int} {d : TimeDelta}
    (h : from_total_microseconds t = .ok d) :
    -999999999 ≤ t / 86400000000 ∧ t / 86400000000 ≤ 999999999 ∧ d.total = t := by
  simp only [from_total_microseconds, MIN_TIMEDELTA_DAYS, MAX_TIMEDELTA_DAYS,
    DAY_MICROSECONDS, DAY_SECONDS, I64_MIN, I64_MAX, chrono_new_ok, decide_eq_true_eq] at h
  split_ifs at h with h1 h2 h3
  all_goals injection h with hh
  all_goals (subst hh; exact ⟨by omega, by omega, rfl⟩)

theorem from_total_ok_intro {t : Int} (h1 : -999999999 ≤ t / 86400000000)
    (h2 : t / 86400000000 ≤ 999999999) :
    from_total_microseconds t = .ok ⟨t⟩ := by
  simp only [from_total_microseconds, MIN_TIMEDELTA_DAYS, MAX_TIMEDELTA_DAYS,
    DAY_MICROSECONDS, DAY_SECONDS, I64_MIN, I64_MAX, chrono_new_ok, decide_eq_true_eq]
  split_ifs with g1 g2 g3 <;> first | rfl | omega

theorem from_total_err_days {t : Int}
    (h : t / 86400000000 < -999999999 ∨ 999999999 < t / 86400000000) :
    from_total_microseconds t =
      .error (.exc (SimpleException.new_msg .overflowError
        (timedelta_days_msg (t / DAY_MICROSECONDS)))) := by
  simp only [from_total_microseconds, MIN_TIMEDELTA_DAYS, MAX_TIMEDELTA_DAYS,
    DAY_MICROSECONDS, DAY_SECONDS]
  split_ifs with g1 <;> first | rfl | omega

theorem components_of_normalized (d : TimeDelta) (h : d.Normalized) :
    MIN_TIMEDELTA_DAYS ≤ (timedelta_components d).1 ∧
      (timedelta_components d).1 ≤ MAX_TIMEDELTA_DAYS ∧
      0 ≤ (timedelta_components d).2.1 ∧ (timedelta_components d).2.1 < 86400 ∧
      0 ≤ (timedelta_components d).2.2 ∧ (timedelta_components d).2.2 < 1000000 := by
  obtain ⟨h1, h2⟩ := h
  simp only [timedelta_days, DAY_MICROSECONDS, DAY_SECONDS, MIN_TIMEDELTA_DAYS,
    MAX_TIMEDELTA_DAYS] at h1 h2
  simp only [timedelta_components, total_microseconds, DAY_MICROSECONDS, DAY_SECONDS,
    MIN_TIMEDELTA_DAYS, MAX_TIMEDELTA_DAYS]
  refine ⟨by omega, by omega, by omega, by omega, by omega, by omega⟩

theorem checked_add_i128_some {x y z : Int} (h : checked_add_i128 x y = some z) :
    z = x + y := by
  unfold checked_add_i128 at h
  split_ifs at h
  all_goals first
    | (injection h with h2; exact h2.symm)
    | cases h

theorem checked_sub_i128_some {x y z : Int} (h : checked_sub_i128 x y = some z) :
    z = x - y := by
  unfold checked_sub_i128 at h
  split_ifs at h
  all_goals first
    | (injection h with h2; exact h2.symm)
    | cases h

theorem normalized_total_bounds {d : TimeDelta} (h : d.Normalized) :
    -999999999 * 86400000000 ≤ d.total ∧ d.total < 1000000000 * 86400000000 := by
  obtain ⟨h1, h2⟩ := h
  simp only [timedelta_days, DAY_MICROSECONDS, DAY_SECONDS, MIN_TIMEDELTA_DAYS,
    MAX_TIMEDELTA_DAYS] at h1 h2
  omega

theorem checked_add_of_normalized {a b : TimeDelta} (ha : a.Normalized) (hb : b.Normalized) :
    checked_add_i128 a.total b.total = some (a.total + b.total) := by
  have h1 := normalized_total_bounds ha
  have h2 := normalized_total_bounds hb
  have hcond : I128_MIN ≤ a.total + b.total ∧ a.total + b.total ≤ I128_MAX := by
    simp only [I128_MIN, I128_MAX]; omega
  unfold checked_add_i128
  rw [if_pos hcond]

theorem checked_sub_of_normalized {a b : TimeDelta} (ha : a.Normalized) (hb : b.Normalized) :
    checked_sub_i128 a.total b.total = some (a.total - b.total) := by
  have h1 := normalized_total_bounds ha
  have h2 := normalized_total_bounds hb
  have hcond : I128_MIN ≤ a.total - b.total ∧ a.total - b.total ≤ I128_MAX := by
    simp only [I128_MIN, I128_MAX]; omega
  unfold checked_sub_i128
  rw [if_pos hcond]

theorem normalized_of_from_total {t : Int} {d : TimeDelta}
    (h : from_total_microseconds t = .ok d) : d.Normalized := by
  have h2 := from_total_ok_elim h
  simp only [TimeDelta.Normalized, timedelta_days, DAY_MICROSECONDS, DAY_SECONDS,
    MIN_TIMEDELTA_DAYS, MAX_TIMEDELTA_DAYS]
  omega

theorem timedelta_py_add_some_elim {a b r : TimeDelta} (ha : a.Normalized)
    (hb : b.Normalized) (h : timedelta_py_add a b = some r) :
    r.Normalized ∧ r.total = a.total + b.total := by
  simp only [timedelta_py_add, total_microseconds, checked_add_of_normalized ha hb] at h
  cases hf : from_total_microseconds (a.total + b.total) with
  | ok r2 =>
    simp only [hf] at h
    injection h with hh
    subst hh
    exact ⟨normalized_of_from_total hf, (from_total_ok_elim hf).2.2⟩
  | error e =>
    simp only [hf] at h
    exact Option.noConfusion h

theorem timedelta_py_sub_some_elim {a b r : TimeDelta} (ha : a.Normalized)
    (hb : b.Normalized) (h : timedelta_py_sub a b = some r) :
    r.Normalized ∧ r.total = a.total - b.total := by
  simp only [timedelta_py_sub, total_microseconds, checked_sub_of_normalized ha hb] at h
  cases hf : from_total_microseconds (a.total - b.total) with
  | ok r2 =>
    simp only [hf] at h
    injection h with hh
    subst hh
    exact ⟨normalized_of_from_total hf, (from_total_ok_elim hf).2.2⟩
  | error e =>
    simp only [hf] at h
    exact Option.noConfusion h

theorem timedelta_py_add_none_elim {a b : TimeDelta} (ha : a.Normalized)
    (hb : b.Normalized) (h : timedelta_py_add a b = none) :
    (a.total + b.total) / 86400000000 < -999999999 ∨
      999999999 < (a.total + b.total) / 86400000000 := by
  by_contra hc
  push_neg at hc
  have hok := from_total_ok_intro (t := a.total + b.total) hc.1 hc.2
  simp only [timedelta_py_add, total_microseconds, checked_add_of_normalized ha hb,
    hok] at h
  exact Option.noConfusion h

theorem timedelta_py_sub_none_elim {a b : TimeDelta} (ha : a.Normalized)
    (hb : b.Normalized) (h : timedelta_py_sub a b = none) :
    (a.total - b.total) / 86400000000 < -999999999 ∨
      999999999 < (a.total - b.total) / 86400000000 := by
  by_contra hc
  push_neg at hc
  have hok := from_total_ok_intro (t := a.total - b.total) hc.1 hc.2
  simp only [timedelta_py_sub, total_microseconds, checked_sub_of_normalized ha hb,
    hok] at h
  exact Option.noConfusion h

theorem vm_binary_add_timedelta_overflow {a b : TimeDelta} (ha : a.Normalized)
    (hb : b.Normalized) {h : Heap} {ia ib : Nat} {rest : List Value} {f : PyBinOp}
    (hga : h.get ia = .timedeltaD a) (hgb : h.get ib = .timedeltaD b)
    (hf : f (.ref ia) (.ref ib) = .ok none) (hnone : timedelta_py_add a b = none) :
    vm_binary_add f (.ref ib :: .ref ia :: rest) h =
      .error (.exc (SimpleException.new_msg .overflowError
        (timedelta_days_msg ((total_microseconds a + total_microseconds b) / 86400000000)))) := by
  have hdays := timedelta_py_add_none_elim ha hb hnone
  have hov : datetime_arithmetic_overflow_add (.ref ia) (.ref ib) h =
      some (.exc (SimpleException.new_msg .overflowError
        (timedelta_days_msg ((a.total + b.total) / 86400000000)))) := by
    simp only [datetime_arithmetic_overflow_add, value_is_date, value_is_datetime,
      value_is_timedelta, value_as_timedelta, hga, hgb, timedelta_overflow_error,
      total_microseconds, MIN_TIMEDELTA_DAYS, MAX_TIMEDELTA_DAYS, Bool.false_and,
      Bool.and_false, Bool.and_self, Bool.false_or, Bool.or_false, Bool.or_self,
      Bool.false_eq_true, if_false, if_true, ite_true, ite_false, if_pos hdays]
  simp only [vm_binary_add, hf, hov, total_microseconds]

theorem vm_binary_sub_timedelta_overflow {a b : TimeDelta} (ha : a.Normalized)
    (hb : b.Normalized) {h : Heap} {ia ib : Nat} {rest : List Value} {f : PyBinOp}
    (hga : h.get ia = .timedeltaD a) (hgb : h.get ib = .timedeltaD b)
    (hf : f (.ref ia) (.ref ib) = .ok none) (hnone : timedelta_py_sub a b = none) :
    vm_binary_sub f (.ref ib :: .ref ia :: rest) h =
      .error (.exc (SimpleException.new_msg .overflowError
        (timedelta_days_msg ((total_microseconds a - total_microseconds b) / 86400000000)))) := by
  have hdays := timedelta_py_sub_none_elim ha hb hnone
  have hov : datetime_arithmetic_overflow_sub (.ref ia) (.ref ib) h =
      some (.exc (SimpleException.new_msg .overflowError
        (timedelta_days_msg ((a.total - b.total) / 86400000000)))) := by
    simp only [datetime_arithmetic_overflow_sub, value_is_date, value_is_datetime,
      value_is_timedelta, value_as_timedelta, hga, hgb, timedelta_overflow_error,
      total_microseconds, MIN_TIMEDELTA_DAYS, MAX_TIMEDELTA_DAYS, Bool.false_and,
      Bool.and_false, Bool.and_self, Bool.false_or, Bool.or_false, Bool.or_self,
      Bool.false_eq_true, if_false, if_true, ite_true, ite_false, if_pos hdays]
  simp only [vm_binary_sub, hf, datetime_awareness, hga, hgb, hov, total_microseconds]

/-- The canonical component bounds asserted by the spec for a normalized
timedelta. -/
def ComponentsInRange (d : TimeDelta) : Prop :=
  -999999999 ≤ (timedelta_components d).1 ∧ (timedelta_components d).1 ≤ 999999999 ∧
    0 ≤ (timedelta_components d).2.1 ∧ (timedelta_components d).2.1 < 86400 ∧
    0 ≤ (timedelta_components d).2.2 ∧ (timedelta_components d).2.2 < 1000000

instance (d : TimeDelta) : Decidable (ComponentsInRange d) := by
  unfold ComponentsInRange; infer_instance

theorem componentsInRange_of_normalized {d : TimeDelta} (h : d.Normalized) :
    ComponentsInRange d := by
  have h2 := components_of_normalized d h
  simp only [MIN_TIMEDELTA_DAYS, MAX_TIMEDELTA_DAYS] at h2
  exact h2

/-- **C2.** Every `TimeDelta` produced by construction
(`from_total_microseconds`, `timedelta::new`) or arithmetic
(`py_add`/`py_sub`) has canonical components with
`-999999999 ≤ days ≤ 999999999`, `0 ≤ seconds < 86400` and
`0 ≤ microseconds < 1000000`; arithmetic is performed on the exact
total-microseconds value with a 128-bit checked add/sub that never
overflows for normalized operands; a construction whose normalized day
count is out of bounds fails with the fixed-format `OverflowError`
`days={days}; must have magnitude <= 999999999`, and an out-of-bounds
arithmetic result raises the same fixed-format `OverflowError` at the VM
level through `binary_add`/`binary_sub`. -/
theorem C2_timedelta_canonical_form :
    (∀ t d, from_total_microseconds t = .ok d →
        ComponentsInRange d ∧ total_microseconds d = t)
    ∧ (∀ dd ss uu d, timedelta_new dd ss uu = .ok d → ComponentsInRange d)
    ∧ (∀ t, (t / DAY_MICROSECONDS < MIN_TIMEDELTA_DAYS ∨
          MAX_TIMEDELTA_DAYS < t / DAY_MICROSECONDS) →
        from_total_microseconds t = .error (.exc (SimpleException.new_msg .overflowError
          (timedelta_days_msg (t / DAY_MICROSECONDS)))))
    ∧ (∀ a b : TimeDelta, a.Normalized → b.Normalized →
        checked_add_i128 (total_microseconds a) (total_microseconds b) =
          some (total_microseconds a + total_microseconds b)
        ∧ (∀ r, timedelta_py_add a b = some r → ComponentsInRange r ∧
            total_microseconds r = total_microseconds a + total_microseconds b)
        ∧ (∀ r, timedelta_py_sub a b = some r → ComponentsInRange r ∧
            total_microseconds r = total_microseconds a - total_microseconds b)
        ∧ (∀ (h : Heap) (ia ib : Nat) (rest : List Value) (f : PyBinOp),
            h.get ia = .timedeltaD a → h.get ib = .timedeltaD b →
            f (.ref ia) (.ref ib) = .ok none → timedelta_py_add a b = none →
            vm_binary_add f (.ref ib :: .ref ia :: rest) h =
              .error (.exc (SimpleException.new_msg .overflowError
                (timedelta_days_msg
                  ((total_microseconds a + total_microseconds b) / 86400000000)))))
        ∧ (∀ (h : Heap) (ia ib : Nat) (rest : List Value) (f : PyBinOp),
            h.get ia = .timedeltaD a → h.get ib = .timedeltaD b →
            f (.ref ia) (.ref ib) = .ok none → timedelta_py_sub a b = none →
            vm_binary_sub f (.ref ib :: .ref ia :: rest) h =
              .error (.exc (SimpleException.new_msg .overflowError
                (timedelta_days_msg
                  ((total_microseconds a - total_microseconds b) / 86400000000)))))) := by
  refine ⟨?_, ?_, ?_, ?_⟩
  · intro t d h
    exact ⟨componentsInRange_of_normalized (normalized_of_from_total h),
      (from_total_ok_elim h).2.2⟩
  · intro dd ss uu d h
    simp only [timedelta_new] at h
    split_ifs at h
    exact componentsInRange_of_normalized (normalized_of_from_total h)
  · intro t ht
    simp only [MIN_TIMEDELTA_DAYS, MAX_TIMEDELTA_DAYS, DAY_MICROSECONDS, DAY_SECONDS] at ht
    have h2 : t / 86400000000 < -999999999 ∨ 999999999 < t / 86400000000 := by omega
    exact from_total_err_days h2
  · intro a b ha hb
    refine ⟨checked_add_of_normalized ha hb, ?_, ?_, ?_, ?_⟩
    · intro r h
      have h2 := timedelta_py_add_some_elim ha hb h
      exact ⟨componentsInRange_of_normalized h2.1, h2.2⟩
    · intro r h
      have h2 := timedelta_py_sub_some_elim ha hb h
      exact ⟨componentsInRange_of_normalized h2.1, h2.2⟩
    · intro h ia ib rest f hga hgb hf hnone
      exact vm_binary_add_timedelta_overflow ha hb hga hgb hf hnone
    · intro h ia ib rest f hga hgb hf hnone
      exact vm_binary_sub_timedelta_overflow ha hb hga hgb hf hnone

set_option maxRecDepth 16000 in
/-- Witness for C2 at concrete inputs: a normalization success, an
out-of-bounds construction, and a VM-level overflowing addition. -/
theorem C2_timedelta_canonical_form_witness :
    (ComponentsInRange ⟨90061000007⟩ ∧ total_microseconds ⟨90061000007⟩ = 90061000007)
    ∧ from_total_microseconds (1000000000 * 86400000000) =
        .error (.exc (SimpleException.new_msg .overflowError (timedelta_days_msg 1000000000)))
    ∧ vm_binary_add (fun _ _ => .ok none) [.ref 1, .ref 0]
        [.timedeltaD ⟨999999999 * 86400000000⟩, .timedeltaD ⟨999999999 * 86400000000⟩] =
        .error (.exc (SimpleException.new_msg .overflowError
          (timedelta_days_msg 1999999998))) := by
  obtain ⟨c1, c2, c3, c4⟩ := C2_timedelta_canonical_form
  refine ⟨c1 90061000007 ⟨90061000007⟩ (from_total_ok_intro (by decide) (by decide)),
    c3 (1000000000 * 86400000000) (by decide), ?_⟩
  exact (c4 ⟨999999999 * 86400000000⟩ ⟨999999999 * 86400000000⟩ (by decide)
    (by decide)).2.2.2.1
    [.timedeltaD ⟨999999999 * 86400000000⟩, .timedeltaD ⟨999999999 * 86400000000⟩]
    0 1 [] (fun _ _ => .ok none) (by decide) (by decide) rfl (by decide)

/-! ## Helper lemmas: date arithmetic -/

theorem date_from_ordinal_ok_elim {o : Int} {d : Date}
    (h : date_from_ordinal o = .ok d) : d.ordinal = o ∧ 1 ≤ o ∧ o ≤ 3652059 := by
  unfold date_from_ordinal at h
  split_ifs at h with h1
  all_goals first
    | (injection h with hh
       subst hh
       simp only [DATE_MIN_ORDINAL, DATE_MAX_ORDINAL] at h1
       exact ⟨rfl, h1.1, h1.2⟩)
    | exact Except.noConfusion h

/-- **C3.** `date - date` yields a timedelta of exactly the ordinal
difference in whole days with zero seconds and microseconds; `date ±
timedelta` uses only the timedelta's days component (seconds and
microseconds are ignored entirely), adding or subtracting it to the
ordinal. -/
theorem C3_date_arithmetic :
    (∀ a b : Date, a.Valid → b.Valid →
        ∃ td, date_py_sub_date a b = some td ∧
          timedelta_components td = (a.ordinal - b.ordinal, 0, 0))
    ∧ (∀ (d : Date) (t t' : TimeDelta), timedelta_days t = timedelta_days t' →
        date_py_add d t = date_py_add d t' ∧ date_py_sub d t = date_py_sub d t')
    ∧ (∀ (d : Date) (t : TimeDelta) (r : Date), d.Valid → t.Normalized →
        date_py_add d t = some r → r.ordinal = d.ordinal + timedelta_days t)
    ∧ (∀ (d : Date) (t : TimeDelta) (r : Date), d.Valid → t.Normalized →
        date_py_sub d t = some r → r.ordinal = d.ordinal - timedelta_days t) := by
  refine ⟨?_, ?_, ?_, ?_⟩
  · intro a b ha hb
    obtain ⟨ha1, ha2⟩ := ha
    obtain ⟨hb1, hb2⟩ := hb
    simp only [DATE_MIN_ORDINAL, DATE_MAX_ORDINAL] at ha1 ha2 hb1 hb2
    have hok : from_total_microseconds ((a.ordinal - b.ordinal) * 86400000000) =
        .ok ⟨(a.ordinal - b.ordinal) * 86400000000⟩ :=
      from_total_ok_intro (by omega) (by omega)
    refine ⟨⟨(a.ordinal - b.ordinal) * 86400000000⟩, ?_, ?_⟩
    · simp only [date_py_sub_date, hok]
    · simp only [timedelta_components, total_microseconds, DAY_MICROSECONDS, DAY_SECONDS,
        Prod.mk.injEq]
      refine ⟨by omega, by omega, by omega⟩
  · intro d t t' hdays
    constructor
    · simp only [date_py_add, hdays]
    · simp only [date_py_sub, hdays]
  · intro d t r hd ht h
    obtain ⟨hd1, hd2⟩ := hd
    have hb := normalized_total_bounds ht
    obtain ⟨ht1, ht2⟩ := ht
    simp only [DATE_MIN_ORDINAL, DATE_MAX_ORDINAL] at hd1 hd2
    simp only [timedelta_days, DAY_MICROSECONDS, DAY_SECONDS, MIN_TIMEDELTA_DAYS,
      MAX_TIMEDELTA_DAYS] at ht1 ht2 ⊢
    simp only [date_py_add, timedelta_days, DAY_MICROSECONDS, DAY_SECONDS] at h
    norm_num at h ht1 ht2 ⊢
    cases hfo : date_from_ordinal (saturating_add_i32 d.ordinal (t.total / 86400000000)) with
    | ok r2 =>
      rw [hfo] at h
      injection h with hh
      subst hh
      have h2 := date_from_ordinal_ok_elim hfo
      simp only [saturating_add_i32, I32_MIN, I32_MAX] at h2 ⊢
      omega
    | error e => rw [hfo] at h; cases h
  · intro d t r hd ht h
    obtain ⟨hd1, hd2⟩ := hd
    have hb := normalized_total_bounds ht
    obtain ⟨ht1, ht2⟩ := ht
    simp only [DATE_MIN_ORDINAL, DATE_MAX_ORDINAL] at hd1 hd2
    simp only [timedelta_days, DAY_MICROSECONDS, DAY_SECONDS, MIN_TIMEDELTA_DAYS,
      MAX_TIMEDELTA_DAYS] at ht1 ht2 ⊢
    simp only [date_py_sub, timedelta_days, DAY_MICROSECONDS, DAY_SECONDS] at h
    norm_num at h ht1 ht2 ⊢
    cases hfo : date_from_ordinal (saturating_sub_i32 d.ordinal (t.total / 86400000000)) with
    | ok r2 =>
      rw [hfo] at h
      injection h with hh
      subst hh
      have h2 := date_from_ordinal_ok_elim hfo
      simp only [saturating_sub_i32, I32_MIN, I32_MAX] at h2 ⊢
      omega
    | error e => rw [hfo] at h; cases h

set_option maxRecDepth 4000 in
/-- Witness for C3: 2024-01-15 (ordinal 738900) minus 2024-01-10 (ordinal
738895), and 2024-01-15 plus a timedelta of 5 days 1 hour (only the 5 days
count). -/
theorem C3_date_arithmetic_witness :
    (∃ td, date_py_sub_date ⟨738900⟩ ⟨738895⟩ = some td ∧
        timedelta_components td = (5, 0, 0))
    ∧ (∀ r : Date, date_py_add ⟨738900⟩ ⟨5 * 86400000000 + 3600000000⟩ = some r →
        r.ordinal = 738900 + 5) := by
  obtain ⟨c1, c2, c3, c4⟩ := C3_date_arithmetic
  constructor
  · exact c1 ⟨738900⟩ ⟨738895⟩ (by decide) (by decide)
  · intro r h
    exact c3 ⟨738900⟩ ⟨5 * 86400000000 + 3600000000⟩ r (by decide) (by decide) h

/-- **C1.** For every pair of datetimes of which exactly one is aware:
`py_eq` is false, `py_cmp` is unordered (`none`), the per-type `py_sub`
reports the combination unsupported, and the VM's `binary_sub` then raises
the dedicated `TypeError` "can't subtract offset-naive and offset-aware
datetimes" instead of the generic unsupported-operand error. -/
theorem C1_aware_naive_datetime :
    ∀ a b : DateTime, is_aware a ≠ is_aware b →
      datetime_py_eq a b = false
      ∧ datetime_py_cmp a b = none
      ∧ datetime_py_sub a b = none
      ∧ (∀ (h : Heap) (ia ib : Nat) (rest : List Value) (f : PyBinOp),
          h.get ia = .datetimeD a → h.get ib = .datetimeD b →
          f (.ref ia) (.ref ib) = .ok none →
          vm_binary_sub f (.ref ib :: .ref ia :: rest) h =
            .error (.exc (SimpleException.new_msg .typeError
              "can't subtract offset-naive and offset-aware datetimes"))) := by
  intro a b hne
  refine ⟨?_, ?_, ?_, ?_⟩
  · simp only [datetime_py_eq, if_pos hne]
  · simp only [datetime_py_cmp, if_pos hne]
  · simp only [datetime_py_sub, if_pos hne]
  · intro h ia ib rest f hga hgb hf
    simp only [vm_binary_sub, hf, datetime_awareness, hga, hgb, if_pos hne,
      datetime_subtract_naive_aware_error]

/-- Witness for C1: a naive and an aware (UTC offset 0) datetime at the
same wall-clock instant. -/
theorem C1_aware_naive_datetime_witness :
    datetime_py_eq ⟨0, none, none⟩ ⟨0, some 0, none⟩ = false
    ∧ datetime_py_cmp ⟨0, none, none⟩ ⟨0, some 0, none⟩ = none
    ∧ datetime_py_sub ⟨0, none, none⟩ ⟨0, some 0, none⟩ = none
    ∧ vm_binary_sub (fun _ _ => .ok none) [.ref 1, .ref 0]
        [.datetimeD ⟨0, none, none⟩, .datetimeD ⟨0, some 0, none⟩] =
        .error (.exc (SimpleException.new_msg .typeError
          "can't subtract offset-naive and offset-aware datetimes")) := by
  obtain ⟨h1, h2, h3, h4⟩ := C1_aware_naive_datetime ⟨0, none, none⟩ ⟨0, some 0, none⟩
    (by decide)
  exact ⟨h1, h2, h3, h4 [.datetimeD ⟨0, none, none⟩, .datetimeD ⟨0, some 0, none⟩]
    0 1 [] (fun _ _ => .ok none) rfl rfl rfl⟩

/-- **C4.** For each VM binary arithmetic helper (`+`, `-`, `*`, `/`, `//`,
`%`, `**`): when the per-type operation succeeds with `Ok(Some v)`, `v` is
pushed onto the remaining stack and no error is raised; when it returns
`Ok(None)` and no datetime/timedelta special case applies, the VM raises a
`TypeError` naming the operator and the Python-level type names of both
operands. -/
theorem C4_binary_dispatch :
    ∀ (f : PyBinOp) (h : Heap) (lhs rhs : Value) (rest : List Value),
      (∀ v, f lhs rhs = .ok (some v) →
          vm_binary_add f (rhs :: lhs :: rest) h = .ok (v :: rest)
        ∧ vm_binary_sub f (rhs :: lhs :: rest) h = .ok (v :: rest)
        ∧ vm_binary_mult f (rhs :: lhs :: rest) h = .ok (v :: rest)
        ∧ vm_binary_div f (rhs :: lhs :: rest) h = .ok (v :: rest)
        ∧ vm_binary_floordiv f (rhs :: lhs :: rest) h = .ok (v :: rest)
        ∧ vm_binary_mod f (rhs :: lhs :: rest) h = .ok (v :: rest)
        ∧ vm_binary_pow f (rhs :: lhs :: rest) h = .ok (v :: rest))
      ∧ (f lhs rhs = .ok none →
          (datetime_arithmetic_overflow_add lhs rhs h = none →
            vm_binary_add f (rhs :: lhs :: rest) h =
              .error (binary_type_error "+" (lhs.py_type_name h) (rhs.py_type_name h)))
        ∧ ((∀ la lb, datetime_awareness lhs h = some la →
              datetime_awareness rhs h = some lb → la = lb) →
            datetime_arithmetic_overflow_sub lhs rhs h = none →
            vm_binary_sub f (rhs :: lhs :: rest) h =
              .error (binary_type_error "-" (lhs.py_type_name h) (rhs.py_type_name h)))
        ∧ vm_binary_mult f (rhs :: lhs :: rest) h =
            .error (binary_type_error "*" (lhs.py_type_name h) (rhs.py_type_name h))
        ∧ vm_binary_div f (rhs :: lhs :: rest) h =
            .error (binary_type_error "/" (lhs.py_type_name h) (rhs.py_type_name h))
        ∧ vm_binary_floordiv f (rhs :: lhs :: rest) h =
            .error (binary_type_error "//" (lhs.py_type_name h) (rhs.py_type_name h))
        ∧ vm_binary_mod f (rhs :: lhs :: rest) h =
            .error (binary_type_error "%" (lhs.py_type_name h) (rhs.py_type_name h))
        ∧ vm_binary_pow f (rhs :: lhs :: rest) h =
            .error (binary_type_error "** or pow()" (lhs.py_type_name h) (rhs.py_type_name h))) := by
  intro f h lhs rhs rest
  constructor
  · intro v hf
    refine ⟨?_, ?_, ?_, ?_, ?_, ?_, ?_⟩ <;>
      simp only [vm_binary_add, vm_binary_sub, vm_binary_mult, vm_binary_div,
        vm_binary_floordiv, vm_binary_mod, vm_binary_pow, vm_binary_simple, hf]
  · intro hf
    refine ⟨?_, ?_, ?_, ?_, ?_, ?_, ?_⟩
    · intro hov
      simp only [vm_binary_add, hf, hov]
    · intro hag hov
      cases hla : datetime_awareness lhs h with
      | none => simp only [vm_binary_sub, hf, hla, hov]
      | some la =>
        cases hlb : datetime_awareness rhs h with
        | none => simp only [vm_binary_sub, hf, hla, hlb, hov]
        | some lb =>
          have heq : la = lb := hag la lb hla hlb
          subst heq
          simp only [vm_binary_sub, hf, hla, hlb, hov, ne_eq, not_true_eq_false,
            if_false]
    all_goals
      simp only [vm_binary_mult, vm_binary_div, vm_binary_floordiv, vm_binary_mod,
        vm_binary_pow, vm_binary_simple, hf]

/-- Witness for C4: a succeeding dispatch pushes the value; an unsupported
`int + str` combination produces the operand-naming `TypeError`. -/
theorem C4_binary_dispatch_witness :
    vm_binary_add (fun _ _ => .ok (some (.intV 3))) [.intV 2, .intV 1] [] =
      .ok [.intV 3]
    ∧ vm_binary_mult (fun _ _ => .ok none) [.ref 0, .intV 1] [.strD "x"] =
      .error (binary_type_error "*" "int" "str")
    ∧ vm_binary_sub (fun _ _ => .ok none) [.ref 0, .intV 1] [.strD "x"] =
      .error (binary_type_error "-" "int" "str") := by
  obtain ⟨hsucc, -⟩ :=
    C4_binary_dispatch (fun _ _ => .ok (some (.intV 3))) [] (.intV 1) (.intV 2) []
  obtain ⟨-, hnone⟩ :=
    C4_binary_dispatch (fun _ _ => .ok none) [.strD "x"] (.intV 1) (.ref 0) []
  refine ⟨(hsucc (.intV 3) rfl).1, ?_, ?_⟩
  · exact (hnone rfl).2.2.1
  · exact (hnone rfl).2.1 (by intro la lb hla hlb; cases hla) (by decide)

/-- **C5.** `RunFrame::raise` with an expression: an exception instance
propagates with a caret-suppressed traceback frame attached; a builtin whose
zero-argument call yields an exception instance propagates it the same way;
any other evaluated value (including a builtin whose zero-argument call
yields a non-exception) is dropped and
`TypeError("exceptions must derive from BaseException")` is raised. -/
theorem C5_raise_semantics :
    ∀ (bc : Nat → ArgValues → Except RunError Value) (name pos : Nat),
      (∀ e : SimpleException,
        frame_raise bc name (some (.ok (.value (.excV e)), pos)) =
          .error (.exc (e.with_frame (raise_frame pos name)))
        ∧ (raise_frame pos name).fromRaise = true)
      ∧ (∀ b e, bc b .empty = .ok (.excV e) →
          frame_raise bc name (some (.ok (.value (.builtinV b)), pos)) =
            .error (.exc (e.with_frame (raise_frame pos name))))
      ∧ (∀ v, (∀ e, v ≠ .excV e) → (∀ b, v ≠ .builtinV b) →
          frame_raise bc name (some (.ok (.value v), pos)) =
            .error (.exc (SimpleException.new_msg .typeError
              "exceptions must derive from BaseException")))
      ∧ (∀ b r, bc b .empty = .ok r → (∀ e, r ≠ .excV e) →
          frame_raise bc name (some (.ok (.value (.builtinV b)), pos)) =
            .error (.exc (SimpleException.new_msg .typeError
              "exceptions must derive from BaseException"))) := by
  intro bc name pos
  refine ⟨?_, ?_, ?_, ?_⟩
  · intro e
    exact ⟨rfl, rfl⟩
  · intro b e hb
    simp only [frame_raise, hb]
  · intro v hexc hbuiltin
    cases v with
    | excV e => exact absurd rfl (hexc e)
    | builtinV b => exact absurd rfl (hbuiltin b)
    | noneV => rfl
    | boolV b => rfl
    | intV n => rfl
    | floatV q => rfl
    | internString s => rfl
    | ref i => rfl
    | undefinedV => rfl
  · intro b r hb hr
    cases r with
    | excV e => exact absurd rfl (hr e)
    | noneV => simp only [frame_raise, hb]
    | boolV b2 => simp only [frame_raise, hb]
    | intV n => simp only [frame_raise, hb]
    | floatV q => simp only [frame_raise, hb]
    | internString s => simp only [frame_raise, hb]
    | builtinV b2 => simp only [frame_raise, hb]
    | ref i => simp only [frame_raise, hb]
    | undefinedV => simp only [frame_raise, hb]

/-- Witness for C5: a raised `ValueError` instance, a builtin constructing a
`ValueError`, a non-exception value (`42`), and a builtin returning a
non-exception. -/
theorem C5_raise_semantics_witness :
    frame_raise (fun b _ => if b = 0 then .ok (.excV ⟨.valueError, none, []⟩)
        else .ok (.boolV false)) 7 (some (.ok (.value (.excV ⟨.valueError, none, []⟩)), 3)) =
      .error (.exc ⟨.valueError, none, [⟨3, 7, true⟩]⟩)
    ∧ frame_raise (fun b _ => if b = 0 then .ok (.excV ⟨.valueError, none, []⟩)
        else .ok (.boolV false)) 7 (some (.ok (.value (.builtinV 0)), 3)) =
      .error (.exc ⟨.valueError, none, [⟨3, 7, true⟩]⟩)
    ∧ frame_raise (fun b _ => if b = 0 then .ok (.excV ⟨.valueError, none, []⟩)
        else .ok (.boolV false)) 7 (some (.ok (.value (.intV 42)), 3)) =
      .error (.exc (SimpleException.new_msg .typeError
        "exceptions must derive from BaseException"))
    ∧ frame_raise (fun b _ => if b = 0 then .ok (.excV ⟨.valueError, none, []⟩)
        else .ok (.boolV false)) 7 (some (.ok (.value (.builtinV 1)), 3)) =
      .error (.exc (SimpleException.new_msg .typeError
        "exceptions must derive from BaseException")) := by
  obtain ⟨hinst, htype, hother, hbuiltin⟩ :=
    C5_raise_semantics (fun b _ => if b = 0 then .ok (.excV ⟨.valueError, none, []⟩)
      else .ok (.boolV false)) 7 3
  exact ⟨(hinst ⟨.valueError, none, []⟩).1, htype 0 ⟨.valueError, none, []⟩ rfl,
    hother (.intV 42) (by intro e h; cases h) (by intro b h; cases h),
    hbuiltin 1 (.boolV false) rfl (by intro e h; cases h)⟩

/-! ## Helper lemmas: the for loop -/

theorem for_loop_fuel_exited (fuel : Nat) :
    ∀ (body : Value → Except RunError (Option FrameExit)) (it : ForIterator)
      (e : FrameExit) (saved : ForIterator),
      for_loop_fuel fuel body it = .exited e saved →
      ∃ v, for_next saved = some (v, ⟨saved.items, saved.idx + 1⟩) ∧
        body v = .ok (some e) := by
  induction fuel with
  | zero =>
    intro body it e saved h
    exact ForOutcome.noConfusion h
  | succ n ih =>
    intro body it e saved h
    simp only [for_loop_fuel, for_next] at h
    cases hg : it.items.get? it.idx with
    | none =>
      simp only [hg] at h
      exact ForOutcome.noConfusion h
    | some v =>
      simp only [hg] at h
      cases hb : body v with
      | ok o =>
        cases o with
        | none =>
          simp only [hb] at h
          exact ih body ⟨it.items, it.idx + 1⟩ e saved h
        | some exit =>
          simp only [hb] at h
          injection h with h1 h2
          subst h1
          subst h2
          refine ⟨v, ?_, hb⟩
          simp only [ForIterator.decr, for_next, Nat.add_sub_cancel, hg]
      | error er =>
        simp only [hb] at h
        exact ForOutcome.noConfusion h

theorem for_loop_fuel_failed (fuel : Nat) :
    ∀ (body : Value → Except RunError (Option FrameExit)) (it : ForIterator)
      (err : RunError),
      for_loop_fuel fuel body it = .failed err → ∃ v, body v = .error err := by
  induction fuel with
  | zero =>
    intro body it err h
    exact ForOutcome.noConfusion h
  | succ n ih =>
    intro body it err h
    simp only [for_loop_fuel, for_next] at h
    cases hg : it.items.get? it.idx with
    | none =>
      simp only [hg] at h
      exact ForOutcome.noConfusion h
    | some v =>
      simp only [hg] at h
      cases hb : body v with
      | ok o =>
        cases o with
        | none =>
          simp only [hb] at h
          exact ih body ⟨it.items, it.idx + 1⟩ err h
        | some exit =>
          simp only [hb] at h
          exact ForOutcome.noConfusion h
      | error er =>
        simp only [hb] at h
        injection h with h1
        subst h1
        exact ⟨v, hb⟩

/-- **C6.** When the body of a `for` loop produces a `FrameExit`, the loop
stops with the iterator rewound by one step saved as clause state, so that
its next `for_next` re-yields exactly the element the body exited on; when
the body raises, the error propagates and the outcome carries no saved
iterator (the iterator is dropped). -/
theorem C6_for_loop_clause_state :
    (∀ (body : Value → Except RunError (Option FrameExit)) (it : ForIterator)
        (e : FrameExit) (saved : ForIterator),
        for_loop body it = .exited e saved →
        ∃ v, for_next saved = some (v, ⟨saved.items, saved.idx + 1⟩) ∧
          body v = .ok (some e))
    ∧ (∀ (body : Value → Except RunError (Option FrameExit)) (it : ForIterator)
        (err : RunError),
        for_loop body it = .failed err → ∃ v, body v = .error err) := by
  constructor
  · intro body it e saved h
    exact for_loop_fuel_exited (it.items.length - it.idx) body it e saved h
  · intro body it err h
    exact for_loop_fuel_failed (it.items.length - it.idx) body it err h

/-- Witness for C6: a three-element loop whose body suspends on the middle
element, and one whose body errors on the middle element. -/
theorem C6_for_loop_clause_state_witness :
    (∃ v, for_next ⟨[.intV 0, .intV 1, .intV 2], 1⟩ =
        some (v, ⟨(⟨[.intV 0, .intV 1, .intV 2], 1⟩ : ForIterator).items,
          (⟨[.intV 0, .intV 1, .intV 2], 1⟩ : ForIterator).idx + 1⟩) ∧
      (fun v => if v = Value.intV 1 then (.ok (some (.ret .noneV)) :
          Except RunError (Option FrameExit)) else .ok none) v = .ok (some (.ret .noneV)))
    ∧ (∃ v, (fun v => if v = Value.intV 1 then (.error (.internal "boom") :
          Except RunError (Option FrameExit)) else .ok none) v =
        .error (.internal "boom")) := by
  obtain ⟨hexit, hfail⟩ := C6_for_loop_clause_state
  constructor
  · exact hexit (fun v => if v = Value.intV 1 then .ok (some (.ret .noneV)) else .ok none)
      ⟨[.intV 0, .intV 1, .intV 2], 0⟩ (.ret .noneV) ⟨[.intV 0, .intV 1, .intV 2], 1⟩
      (by decide)
  · exact hfail (fun v => if v = Value.intV 1 then .error (.internal "boom") else .ok none)
      ⟨[.intV 0, .intV 1, .intV 2], 0⟩ (.internal "boom") (by decide)

/-- **C7.** `execute_node` polls the time limit before dispatching on any
statement kind; a failed check yields `RunError::UncatchableExc` — never a
catchable `RunError::Exc` — regardless of the statement. -/
theorem C7_time_limit_uncatchable :
    ∀ (e : SimpleException) (bc : Nat → ArgValues → Except RunError Value)
      (name : Nat) (node : Node),
      execute_node (some e) bc name node = .error (.uncatchableExc e)
      ∧ ∀ ex, execute_node (some e) bc name node ≠ .error (.exc ex) := by
  intro e bc name node
  refine ⟨rfl, ?_⟩
  intro ex h
  injection h with h2
  exact RunError.noConfusion h2

/-! ## Helper lemma: the base intern table evaluates to the base sequence -/

set_option maxRecDepth 100000 in
theorem build_base_eq : build_base = base_strings := by decide

set_option maxRecDepth 100000 in
/-- **C8.** The base intern table: slot 0 is `"<module>"`, slots 1..=70 are
the well-known attribute names in declared order (`"append"` .. `"fromhex"`),
slot 71 is the empty string, and slot `72 + b` is the one-character string of
byte `b` for every `b < 128` (200 slots in all); interning an
already-present string returns its existing id — the table is unchanged and
the id resolves to that string. -/
theorem C8_base_intern_table :
    build_base.length = 200
    ∧ attr_names.length = 70
    ∧ build_base.get? 0 = some "<module>"
    ∧ (∀ i, i < 70 → build_base.get? (i + 1) = attr_names.get? i)
    ∧ build_base.get? 1 = some "append"
    ∧ build_base.get? 70 = some "fromhex"
    ∧ build_base.get? 71 = some ""
    ∧ (∀ b, b < 128 → build_base.get? (72 + b) = some (String.mk [Char.ofNat b]))
    ∧ (∀ (st : List String) (s : String), s ∈ st →
        intern st s = (st, st.indexOf s) ∧ st.get? (st.indexOf s) = some s) := by
  rw [build_base_eq]
  refine ⟨by decide, by decide, by decide, by decide, by decide, by decide, by decide,
    by decide, ?_⟩
  intro st s h
  exact ⟨by simp only [intern, if_pos h], List.indexOf_get? h⟩

set_option maxRecDepth 100000 in
/-- Witness for C8's dedup conjunct: re-interning `"pop"` into the base
table returns its existing id 13 and leaves the table unchanged. -/
theorem C8_base_intern_table_witness :
    intern base_strings "pop" = (base_strings, 13)
    ∧ base_strings.get? 13 = some "pop" := by
  have h := C8_base_intern_table.2.2.2.2.2.2.2.2 base_strings "pop" (by decide)
  have hidx : base_strings.indexOf "pop" = 13 := by decide
  rw [hidx] at h
  exact h

/-- **C9.** `int(float)` truncates toward zero and silently clamps at the
`i64` range: the result is always an inline `Int` (never a heap `LongInt`,
never an `OverflowError`), equal to the truncation when that is strictly
inside `(-2^63, 2^63)` and clamped to `i64::MAX`/`i64::MIN` otherwise —
while the string path of `int()` does produce heap-allocated big integers. -/
theorem C9_int_of_float :
    (∀ (q : ℚ) (interns : List String) (h : Heap),
        int_call (some (.floatV q)) interns h = .ok (.intV (f64_to_i64_truncate q), h))
    ∧ (∀ q : ℚ, I64_MIN ≤ f64_to_i64_truncate q ∧ f64_to_i64_truncate q ≤ I64_MAX
        ∧ (rat_trunc q < 2 ^ 63 → -(2 ^ 63) < rat_trunc q →
            f64_to_i64_truncate q = rat_trunc q)
        ∧ (2 ^ 63 ≤ rat_trunc q → f64_to_i64_truncate q = I64_MAX)
        ∧ (rat_trunc q ≤ -(2 ^ 63) → f64_to_i64_truncate q = I64_MIN))
    ∧ (∃ (s : String) (h2 : Heap) (rid : Nat),
        int_call (some (.ref 0)) [] [.strD s] = .ok (.ref rid, h2)
        ∧ h2.get rid = .longIntD (2 ^ 63)) := by
  refine ⟨?_, ?_, ?_⟩
  · intro q interns h
    rfl
  · intro q
    simp only [f64_to_i64_truncate, I64_MIN, I64_MAX]
    split_ifs with h1 h2 <;> refine ⟨by omega, by omega, by omega, by omega, by omega⟩
  · refine ⟨"9223372036854775808", [.strD "9223372036854775808", .longIntD (2 ^ 63)], 1,
      ?_, ?_⟩
    · decide
    · decide

/-- Witness for C9's clamping clauses at `5/2` (truncates to 2),
`2^64` (clamps to `i64::MAX`) and `-(2^64)` (clamps to `i64::MIN`). -/
theorem C9_int_of_float_witness :
    int_call (some (.floatV (5 / 2))) [] [] = .ok (.intV 2, [])
    ∧ f64_to_i64_truncate ((2 : ℚ) ^ 64) = I64_MAX
    ∧ f64_to_i64_truncate (-((2 : ℚ) ^ 64)) = I64_MIN := by
  obtain ⟨hfloat, hclamp, -⟩ := C9_int_of_float
  have htr1 : rat_trunc ((5 : ℚ) / 2) = 2 := by
    unfold rat_trunc
    norm_num
    decide
  have htr2 : rat_trunc ((2 : ℚ) ^ 64) = 2 ^ 64 := by
    unfold rat_trunc
    norm_num
  have htr3 : rat_trunc (-((2 : ℚ) ^ 64)) = -(2 ^ 64) := by
    unfold rat_trunc
    norm_num
  refine ⟨?_, ?_, ?_⟩
  · have h := hfloat (5 / 2) [] []
    rw [h]
    have h2 : f64_to_i64_truncate (5 / 2) = rat_trunc (5 / 2) :=
      (hclamp (5 / 2)).2.2.1 (by rw [htr1]; decide) (by rw [htr1]; decide)
    rw [h2, htr1]
  · exact (hclamp ((2 : ℚ) ^ 64)).2.2.2.1 (by rw [htr2]; decide)
  · exact (hclamp (-((2 : ℚ) ^ 64))).2.2.2.2 (by rw [htr3]; decide)

/-- **C10.** `Namespaces::get_var_mut`: an out-of-bounds slot or an
`Undefined` sentinel is a `NameError` carrying the variable's name and
source position; any other stored value is returned unchanged. -/
theorem C10_get_var_mut :
    ∀ (namespaces : List (List Value)) (local_idx : Nat) (ident : Identifier),
      (∀ v, (namespaces.getD (match ident.scope with
            | .localScope => local_idx
            | .globalScope => GLOBAL_NS_IDX) []).get? ident.namespace_id = some v →
          v ≠ .undefinedV → get_var_mut namespaces local_idx ident = .ok v)
      ∧ ((namespaces.getD (match ident.scope with
            | .localScope => local_idx
            | .globalScope => GLOBAL_NS_IDX) []).get? ident.namespace_id = none ∨
          (namespaces.getD (match ident.scope with
            | .localScope => local_idx
            | .globalScope => GLOBAL_NS_IDX) []).get? ident.namespace_id =
            some .undefinedV →
          get_var_mut namespaces local_idx ident =
            .error ⟨.nameError, some ident.name, some ident.position⟩) := by
  intro namespaces local_idx ident
  constructor
  · intro v hget hv
    simp only [get_var_mut, hget]
    rw [if_neg hv]
  · intro hcase
    cases hcase with
    | inl hnone => simp only [get_var_mut, hnone]
    | inr hundef =>
      simp only [get_var_mut, hundef]
      rw [if_pos trivial]

/-- Witness for C10 on a two-slot local namespace: slot 0 holds `5`, slot 1
is `Undefined`, slot 2 is out of bounds. -/
theorem C10_get_var_mut_witness :
    get_var_mut [[.intV 5, .undefinedV]] 0 ⟨"x", 11, .localScope, 0⟩ = .ok (.intV 5)
    ∧ get_var_mut [[.intV 5, .undefinedV]] 0 ⟨"y", 12, .localScope, 1⟩ =
        .error ⟨.nameError, some "y", some 12⟩
    ∧ get_var_mut [[.intV 5, .undefinedV]] 0 ⟨"z", 13, .localScope, 2⟩ =
        .error ⟨.nameError, some "z", some 13⟩ := by
  refine ⟨?_, ?_, ?_⟩
  · exact (C10_get_var_mut [[.intV 5, .undefinedV]] 0 ⟨"x", 11, .localScope, 0⟩).1
      (.intV 5) (by decide) (by decide)
  · exact (C10_get_var_mut [[.intV 5, .undefinedV]] 0 ⟨"y", 12, .localScope, 1⟩).2
      (Or.inr (by decide))
  · exact (C10_get_var_mut [[.intV 5, .undefinedV]] 0 ⟨"z", 13, .localScope, 2⟩).2
      (Or.inl (by decide))
